import Mathlib

/-!
Shallow embedding of `src/backend/app.py` (Resume-Analyzer-Builder-V2).

The program is a small Flask service.  The parts modelled here are:
  * `_call_groq`  : the retry loop around the completion API call;
  * `extract_resume_text` : extension dispatch for text extraction;
  * `upload_resume` (`POST /upload`) : the pipeline save, extract,
    prompt, completion, regex parse, JSON response;
  * `analyze_resume` (`POST /analyze`) : the lighter direct-text endpoint.

External effects (the OpenAI-compatible client, pdfminer `extract_text`,
`python-docx` paragraphs, `file.save`) are passed in as function
parameters returning `Except String` values: an `Except.error e` models a
Python exception whose `str` is `e`.

The three `re.search` calls of `upload_resume` are embedded as direct
scanners over `List Char`; they follow Python `re` semantics
(leftmost match, greedy and lazy quantifiers as in the patterns used) on
the character classes the patterns mention.  `\s`, `str.strip` and
`str.lower` are modelled on their ASCII behaviour.
-/

namespace ResumeApp

/-- ASCII whitespace, as accepted by Python regex `\s` and `str.strip`
on ASCII text. -/
def pyWs (c : Char) : Bool :=
  c = ' ' || c = '\t' || c = '\n' || c = '\r' || c = '\x0b' || c = '\x0c'

/-- Python `str.strip()` on a character list: drop whitespace at both ends. -/
def pyStripList (l : List Char) : List Char :=
  ((l.dropWhile pyWs).reverse.dropWhile pyWs).reverse

/-- Python `str.strip()`. -/
def pyStrip (s : String) : String := ⟨pyStripList s.data⟩

/-- Python `str.lower()` (ASCII letters). -/
def lowerStr (s : String) : String := ⟨s.data.map Char.toLower⟩

/-- Case-insensitive character comparison, used to model `re.IGNORECASE`. -/
def ciEq (a b : Char) : Bool := a.toLower == b.toLower

/-- Consume the pattern `p` case-insensitively from the front of `l`;
return the remainder, or `none` when `p` is not a (case-insensitive)
literal front of `l`. -/
def ciConsume : List Char → List Char → Option (List Char)
  | [], l => some l
  | _ :: _, [] => none
  | p :: ps, c :: cs => if ciEq p c then ciConsume ps cs else none

/-- Whether `p` occurs case-insensitively at the front of `l`. -/
def ciStartsWith (p l : List Char) : Bool := (ciConsume p l).isSome

/-- Case-sensitive literal front match (used only to state containment
facts about concrete strings). -/
def startsWithL : List Char → List Char → Bool
  | [], _ => true
  | _ :: _, [] => false
  | p :: ps, c :: cs => p == c && startsWithL ps cs

/-- Case-sensitive substring occurrence test. -/
def containsSub (pat : List Char) : List Char → Bool
  | [] => startsWithL pat []
  | c :: cs => startsWithL pat (c :: cs) || containsSub pat cs

/-- `re.search` position loop: try the matcher at every start position,
left to right, returning the first success. -/
def searchFrom (m : List Char → Option String) : List Char → Option String
  | [] => m []
  | c :: cs =>
    match m (c :: cs) with
    | some r => some r
    | none => searchFrom m cs

/-- Greedy `\s*`. -/
def dropWs (l : List Char) : List Char := l.dropWhile pyWs

/-- The separator `\s*[:\-]?\s*` appearing after the `Rating` and
`Suggestions` markers.  Because whitespace, `:`/`-` and the following
character classes are disjoint, Python backtracking is equivalent to this
maximal munch. -/
def sepMunch (l : List Char) : List Char :=
  match dropWs l with
  | [] => []
  | c :: cs => if c = ':' || c = '-' then dropWs cs else c :: cs

/-- The literal of the example marker of both the suggestions and the
example patterns. -/
def exMarker : List Char := "Example of rewritten section".data

/-- The literal searched for by the suggestions pattern. -/
def sugMarker : List Char := "Suggestions".data

/-- The literal searched for by the rating pattern. -/
def ratMarker : List Char := "Rating".data

/-- Match `Rating\s*[:\-]?\s*(\d{1,2})` at one position (group 1).
`\d{1,2}` is greedy: two digits when available, else one. -/
def matchRating (l : List Char) : Option String :=
  match ciConsume ratMarker l with
  | none => none
  | some rest =>
    match sepMunch rest with
    | [] => none
    | [d1] => if d1.isDigit then some ⟨[d1]⟩ else none
    | d1 :: d2 :: _ =>
      if d1.isDigit then
        (if d2.isDigit then some ⟨[d1, d2]⟩ else some ⟨[d1]⟩)
      else none

/-- `re.search(r'Rating\s*[:\-]?\s*(\d{1,2})', reply, re.IGNORECASE)`,
returning group 1. -/
def ratingSearch (s : String) : Option String := searchFrom matchRating s.data

/-- The lazy group `(.*?)` of the suggestions pattern: capture characters
until the first case-insensitive occurrence of the example marker, or the
end of the string. -/
def captureUntilMarker : List Char → List Char
  | [] => []
  | c :: cs => if ciStartsWith exMarker (c :: cs) then [] else c :: captureUntilMarker cs

/-- Match `Suggestions\s*[:\-]?\s*(.*?)(?:Example of rewritten section|$)`
at one position (group 1, `re.DOTALL`).  The continuation after the
separator always succeeds, so the separator's maximal munch is exact. -/
def matchSuggestions (l : List Char) : Option String :=
  match ciConsume sugMarker l with
  | none => none
  | some rest => some ⟨captureUntilMarker (sepMunch rest)⟩

/-- `re.search(r'Suggestions\s*[:\-]?\s*(.*?)(?:Example of rewritten section|$)',
reply, re.IGNORECASE | re.DOTALL)`, returning group 1. -/
def suggestionsSearch (s : String) : Option String :=
  searchFrom matchSuggestions s.data

/-- The lazy `.*?:` of the example pattern: drop characters up to and
including the first colon; `none` when there is no colon. -/
def dropToColon : List Char → Option (List Char)
  | [] => none
  | c :: cs => if c = ':' then some cs else dropToColon cs

/-- Match `Example of rewritten section.*?:\s*(.*)` at one position
(group 1, `re.DOTALL`): the marker, then everything up to the first
colon, then greedy whitespace, then the rest of the string is captured. -/
def matchExample (l : List Char) : Option String :=
  match ciConsume exMarker l with
  | none => none
  | some rest =>
    match dropToColon rest with
    | none => none
    | some after => some ⟨dropWs after⟩

/-- `re.search(r'Example of rewritten section.*?:\s*(.*)', reply,
re.IGNORECASE | re.DOTALL)`, returning group 1. -/
def exampleSearch (s : String) : Option String := searchFrom matchExample s.data

/-- The three optional fields recovered from the reply, as bound on
lines 98-103 of `app.py` (`.strip()` applied to groups of the
suggestions and example matches; the rating group is digits only and is
not stripped). -/
structure Parsed where
  rating : Option String
  suggestions : Option String
  exampleField : Option String
deriving DecidableEq

/-- Lines 98-103 of `upload_resume`: the three regex searches plus the
`.strip()` post-processing. -/
def parseReply (reply : String) : Parsed :=
  { rating := ratingSearch reply
  , suggestions := (suggestionsSearch reply).map pyStrip
  , exampleField := (exampleSearch reply).map pyStrip }

/-- Python truthiness of an optional string: `None` and `''` are falsy. -/
def truthy : Option String → Bool
  | none => false
  | some s => !(s == "")

/-- The error raised by `_call_groq` when `client` is `None`
(no `GROQ_API_KEY`). -/
def groqConfigError : String := "GROQ_API_KEY is not configured on the server."

/-- The aggregated failure message raised after the retry loop
(`str(None)` is rendered for an empty loop, as in the f-string). -/
def groqFailMsg (maxRetries : Nat) (lastErr : Option String) : String :=
  "Groq AI request failed after " ++ toString maxRetries ++ " attempts: " ++
    (match lastErr with
     | none => "None"
     | some e => e)

/-- The `for attempt in range(1, max_retries + 1)` loop of `_call_groq`.
`f attempt` models `client.responses.create(...).output_text` on the
given attempt (`Except.error e` is a raised exception with `str` `e`).
Returns the outcome together with the number of underlying calls made. -/
def callGroqAux (f : Nat → Except String String) (maxRetries : Nat) :
    Nat → Nat → Option String → Except String String × Nat
  | _, 0, lastErr => (.error (groqFailMsg maxRetries lastErr), 0)
  | attempt, remaining + 1, _ =>
    match f attempt with
    | .ok r => (.ok (pyStrip r), 1)
    | .error e =>
      let p := callGroqAux f maxRetries (attempt + 1) remaining (some e)
      (p.1, p.2 + 1)

/-- `_call_groq(prompt, max_retries)`: the configuration guard followed by
the retry loop.  `oracle prompt attempt` is the underlying API call;
on success its text is returned `.strip()`ped.  The second component is
the number of underlying calls made. -/
def _call_groq (configured : Bool) (oracle : String → Nat → Except String String)
    (prompt : String) (maxRetries : Nat) : Except String String × Nat :=
  if configured then callGroqAux (oracle prompt) maxRetries 1 maxRetries none
  else (.error groqConfigError, 0)

/-- The extension produced by `os.path.splitext(file_path)[1]` (posix):
take the basename, ignore its leading dots, and return the suffix from
its last dot (dot included), or the empty string when there is none. -/
def splitextExt (p : String) : String :=
  let base := (p.data.reverse.takeWhile (fun c => c != '/')).reverse
  let trimmed := base.dropWhile (fun c => c == '.')
  if trimmed.contains '.' then
    ⟨'.' :: (trimmed.reverse.takeWhile (fun c => c != '.')).reverse⟩
  else ""

/-- `extract_resume_text(file_path)`.  `pdfExtract` models pdfminer's
`extract_text`; `docxParagraphs` models `Document(path).paragraphs`
texts, joined with newlines as in the source.  Library failures
propagate as exceptions (`Except.error`). -/
def extract_resume_text (pdfExtract : String → Except String String)
    (docxParagraphs : String → Except String (List String))
    (file_path : String) : Except String String :=
  let ext := lowerStr (splitextExt file_path)
  if ext = ".pdf" then pdfExtract file_path
  else if ext = ".docx" then
    (docxParagraphs file_path).map (fun ps => String.intercalate "\n" ps)
  else .ok ""

/-- An HTTP response: status code plus the JSON object body, which in
this program is always an object of string fields (in insertion order). -/
structure Response where
  status : Nat
  body : List (String × String)
deriving DecidableEq

/-- Which externally visible steps a request handler performed:
whether `file.save` was reached, whether extraction was reached, and how
many underlying completion calls were made. -/
structure Effects where
  saveAttempted : Bool
  extractAttempted : Bool
  groqAttempts : Nat
deriving DecidableEq

/-- The fixed prompt template of `upload_resume` with the extracted text
substituted. -/
def uploadPrompt (resume_text : String) : String :=
  "You are an expert resume reviewer and career advisor. " ++
  "Carefully analyze the following resume and provide highly actionable, specific, and detailed suggestions for improvement. " ++
  "For each suggestion, include a concrete example or rewrite (e.g., \x27Instead of X, do Y\x27 or \x27For example: ...\x27). " ++
  "After the suggestions, provide an example of a rewritten section (such as the summary or a project description) that would be considered a 10 out of 10, based on your feedback. " ++
  "Be strict about the format and do not skip any section. " ++
  "Consider clarity, structure, skills, achievements, relevance to modern job markets, and overall professionalism. " ++
  "Also, give an overall rating for the resume on a scale of 1 to 10, where 10 is outstanding and 1 is very poor. " ++
  "Respond in the following format (do not include anything else):\n" ++
  "Rating: <number>\nSuggestions:\n<bullet points or text, each with an improved example or rewrite>\nExample of rewritten section (10/10):\n<your rewritten section>\n" ++
  "\nResume:\n" ++ resume_text

/-- The incomplete-analysis error message of line 105. -/
def incompleteMsg : String :=
  "AI could not provide a complete analysis. Please try again."

/-- `upload_resume` (`POST /upload`).  `hasResume` is whether the
multipart form has a `resume` field; `saveResult` models `file.save`
(which may raise); `filename` is the uploaded filename used to build
`temp/<filename>`; `configured`/`oracle` feed `_call_groq` as above.
`os.remove` is modelled as succeeding.  The broad `except` of lines
107-108 turns any raised exception into a 500 with its `str`. -/
def upload_resume (hasResume : Bool) (saveResult : Except String Unit)
    (pdfExtract : String → Except String String)
    (docxParagraphs : String → Except String (List String))
    (filename : String) (configured : Bool)
    (oracle : String → Nat → Except String String) : Response × Effects :=
  if hasResume then
    match saveResult with
    | .error e =>
      (⟨500, [("error", e)]⟩, ⟨true, false, 0⟩)
    | .ok _ =>
      match extract_resume_text pdfExtract docxParagraphs ("temp/" ++ filename) with
      | .error e =>
        (⟨500, [("error", e)]⟩, ⟨true, true, 0⟩)
      | .ok resume_text =>
        if pyStrip resume_text = "" then
          (⟨400, [("error", "Could not extract text from resume.")]⟩, ⟨true, true, 0⟩)
        else
          match _call_groq configured oracle (uploadPrompt resume_text) 3 with
          | (.error e, n) => (⟨500, [("error", e)]⟩, ⟨true, true, n⟩)
          | (.ok ai_reply, n) =>
            let p := parseReply ai_reply
            if truthy p.rating && truthy p.suggestions && truthy p.exampleField then
              (⟨200, [("ai_rating", p.rating.getD ""),
                      ("ai_suggestions", p.suggestions.getD ""),
                      ("ai_example", p.exampleField.getD ""),
                      ("raw_ai_output", ai_reply)]⟩, ⟨true, true, n⟩)
            else
              (⟨500, [("error", incompleteMsg),
                      ("raw_ai_output", ai_reply)]⟩, ⟨true, true, n⟩)
  else
    (⟨400, [("error", "No file uploaded")]⟩, ⟨false, false, 0⟩)

/-- The prompt template of `analyze_resume`. -/
def analyzePrompt (resume_text : String) : String :=
  "You are an expert resume coach. Provide concise, actionable improvement suggestions (bullet list) and then a polished summary rewrite.\n" ++
  "Resume text:\n" ++ resume_text

/-- `analyze_resume` (`POST /analyze`).  `resume_text_field` is
`data.get('resume_text', '')` (absent field modelled as `none`); the
empty string is falsy.  The second component is the number of underlying
completion calls made. -/
def analyze_resume (resume_text_field : Option String) (configured : Bool)
    (oracle : String → Nat → Except String String) (model : String) :
    Response × Nat :=
  let resume_text := resume_text_field.getD ""
  if resume_text = "" then
    (⟨400, [("error", "No resume text provided")]⟩, 0)
  else
    match _call_groq configured oracle (analyzePrompt resume_text) 3 with
    | (.error e, n) => (⟨500, [("error", e)]⟩, n)
    | (.ok ai_reply, n) => (⟨200, [("ai_suggestions", ai_reply), ("model", model)]⟩, n)

/-! ## Helper lemmas -/

/-- If the matcher fails on every suffix that starts inside `a`, the
search over `a ++ x` is the search over `x`. -/
theorem searchFrom_skip (m : List Char → Option String) :
    ∀ (a x : List Char), (∀ n, n < a.length → m (List.drop n a ++ x) = none) →
      searchFrom m (a ++ x) = searchFrom m x := by
  intro a
  induction a with
  | nil => intro x _; rfl
  | cons c cs ih =>
    intro x h
    have h0 : m (c :: (cs ++ x)) = none := by
      have := h 0 (Nat.succ_pos _)
      simpa using this
    have h' : ∀ n, n < cs.length → m (List.drop n cs ++ x) = none := by
      intro n hn
      have := h (n + 1) (Nat.succ_lt_succ hn)
      simpa using this
    calc searchFrom m ((c :: cs) ++ x) = searchFrom m (cs ++ x) := by
          simp [searchFrom, h0]
      _ = searchFrom m x := ih x h'

/-- Consuming a pattern from a string that literally starts with it. -/
theorem ciConsume_append (p rest : List Char) :
    ciConsume p (p ++ rest) = some rest := by
  induction p with
  | nil => rfl
  | cons c cs ih => simp [ciConsume, ciEq, ih]

/-- Every character of the remainder left by `ciConsume` is a character
of the input. -/
theorem ciConsume_mem :
    ∀ (p l r : List Char), ciConsume p l = some r → ∀ c, c ∈ r → c ∈ l := by
  intro p
  induction p with
  | nil =>
    intro l r h c hc
    simp [ciConsume] at h
    simpa [h] using hc
  | cons q qs ih =>
    intro l r h c hc
    cases l with
    | nil => simp [ciConsume] at h
    | cons x xs =>
      by_cases hx : ciEq q x = true
      · simp [ciConsume, hx] at h
        exact List.mem_cons_of_mem x (ih xs r h c hc)
      · simp [ciConsume, hx] at h

/-- Dropping an all-whitespace block in front of the scan target. -/
theorem dropWs_ws_append (w t : List Char) (hw : ∀ c ∈ w, pyWs c = true) :
    dropWs (w ++ t) = dropWs t := by
  induction w with
  | nil => rfl
  | cons c cs ih =>
    have hc : pyWs c = true := hw c (List.mem_cons_self c cs)
    have hcs : ∀ d ∈ cs, pyWs d = true := fun d hd => hw d (List.mem_cons_of_mem c hd)
    simp [dropWs, List.dropWhile, hc] at ih ⊢
    exact ih hcs

/-- A string with no colon is rejected by the lazy `.*?:` scan. -/
theorem dropToColon_eq_none : ∀ (l : List Char), ':' ∉ l → dropToColon l = none := by
  intro l
  induction l with
  | nil => intro _; rfl
  | cons c cs ih =>
    intro h
    have hc : ¬ c = ':' := fun hh => h (hh ▸ List.mem_cons_self c cs)
    have hcs : ':' ∉ cs := fun hh => h (List.mem_cons_of_mem c hh)
    simp [dropToColon, ih hcs, hc]

/-- The example pattern cannot match at a position after which no colon
occurs. -/
theorem matchExample_eq_none (l : List Char) (h : ':' ∉ l) :
    matchExample l = none := by
  cases hc : ciConsume exMarker l with
  | none => simp [matchExample, hc]
  | some rest =>
    have hrest : ':' ∉ rest := fun hm => h (ciConsume_mem exMarker l rest hc ':' hm)
    simp [matchExample, hc, dropToColon_eq_none rest hrest]

/-- The example search fails on any colon-free input. -/
theorem exampleSearch_no_colon :
    ∀ (l : List Char), ':' ∉ l → searchFrom matchExample l = none := by
  intro l
  induction l with
  | nil =>
    intro _
    simp [searchFrom, matchExample_eq_none [] (by simp)]
  | cons c cs ih =>
    intro h
    have hcs : ':' ∉ cs := fun hh => h (List.mem_cons_of_mem c hh)
    simp [searchFrom, matchExample_eq_none (c :: cs) h, ih hcs]

/-- One failing step of the retry loop. -/
theorem callGroqAux_step (f : Nat → Except String String)
    (maxR attempt remaining : Nat) (le : Option String) (e : String)
    (hfa : f attempt = .error e) :
    callGroqAux f maxR attempt (remaining + 1) le
      = ((callGroqAux f maxR (attempt + 1) remaining (some e)).1,
         (callGroqAux f maxR (attempt + 1) remaining (some e)).2 + 1) := by
  simp [callGroqAux, hfa]

/-- The retry loop when every attempt raises: it performs exactly
`remaining` further calls and aggregates the error text of the last one. -/
theorem callGroqAux_allFail (f : Nat → Except String String) (maxR : Nat)
    (errOf : Nat → String) (hf : ∀ k, f k = .error (errOf k)) :
    ∀ (remaining attempt : Nat) (le : Option String), 1 ≤ remaining →
      callGroqAux f maxR attempt remaining le
        = (.error (groqFailMsg maxR (some (errOf (attempt + remaining - 1)))), remaining) := by
  intro remaining
  induction remaining with
  | zero => intro _ _ h; exact absurd h (by simp)
  | succ r ih =>
    intro attempt le _
    cases r with
    | zero => simp [callGroqAux, hf attempt]
    | succ r' =>
      have hr : 1 ≤ r' + 1 := Nat.succ_le_succ (Nat.zero_le r')
      have harith : attempt + 1 + (r' + 1) - 1 = attempt + (r' + 1 + 1) - 1 := by omega
      rw [callGroqAux_step f maxR attempt (r' + 1) le (errOf attempt) (hf attempt),
          ih (attempt + 1) (some (errOf attempt)) hr, harith]

/-- One successful step of the retry loop. -/
theorem callGroqAux_ok (f : Nat → Except String String)
    (maxR attempt remaining : Nat) (le : Option String) (r : String)
    (hfa : f attempt = .ok r) :
    callGroqAux f maxR attempt (remaining + 1) le = (.ok (pyStrip r), 1) := by
  simp [callGroqAux, hfa]

/-! ## Claim theorems -/

/-- C2's specific well-formed reply. -/
def c2Reply : String :=
  "Rating: 8\nSuggestions:\n- improve X\nExample of rewritten section (10/10):\nRewritten text"

/-- C2: on the well-formed reply containing the literal markers
`Rating: 8`, `Suggestions:` + `- improve X` and
`Example of rewritten section (10/10):` + `Rewritten text`, the parser
yields rating `"8"`, suggestions exactly `"- improve X"` (so in
particular beginning with it), and example `"Rewritten text"`. -/
theorem parse_wellformed_reply :
    parseReply c2Reply
      = { rating := some "8", suggestions := some "- improve X",
          exampleField := some "Rewritten text" } := by
  decide

/-- C4: when every underlying attempt raises, `_call_groq` makes exactly
`max_retries` calls and then fails with the aggregated message, which
contains the attempt count and the text of the last underlying
exception as visible substrings of the stated concatenation. -/
theorem groq_all_fail_exact_attempts
    (oracle : String → Nat → Except String String) (prompt : String)
    (errOf : Nat → String) (maxR : Nat) (hmax : 1 ≤ maxR)
    (hf : ∀ k, oracle prompt k = .error (errOf k)) :
    _call_groq true oracle prompt maxR
      = (.error ("Groq AI request failed after " ++ toString maxR ++
                 " attempts: " ++ errOf maxR), maxR) := by
  have h := callGroqAux_allFail (oracle prompt) maxR errOf hf maxR 1 none hmax
  have harith : 1 + maxR - 1 = maxR := by omega
  rw [harith] at h
  simpa [_call_groq, groqFailMsg] using h

/-- Witness for C4 at the default ceiling 3 and an always-throwing call. -/
theorem groq_all_fail_exact_attempts_witness :
    _call_groq true (fun _ k => .error ("boom" ++ toString k)) "p" 3
      = (.error "Groq AI request failed after 3 attempts: boom3", 3) := by
  rw [groq_all_fail_exact_attempts (fun _ k => .error ("boom" ++ toString k)) "p"
        (fun k => "boom" ++ toString k) 3 (by omega) (fun _ => rfl)]
  rfl

/-- C5: with the default ceiling 3, if the underlying call throws on
attempts 1 and 2 and succeeds on attempt 3, `_call_groq` returns the
third attempt's (stripped) text after exactly 3 underlying calls; since
the oracle is arbitrary beyond attempt 3, no fourth call can influence
the result. -/
theorem groq_third_attempt_success
    (oracle : String → Nat → Except String String) (prompt : String)
    (e1 e2 r : String)
    (h1 : oracle prompt 1 = .error e1) (h2 : oracle prompt 2 = .error e2)
    (h3 : oracle prompt 3 = .ok r) :
    _call_groq true oracle prompt 3 = (.ok (pyStrip r), 3) := by
  have s1 := callGroqAux_step (oracle prompt) 3 1 2 none e1 h1
  have s2 := callGroqAux_step (oracle prompt) 3 2 1 (some e1) e2 h2
  have s3 := callGroqAux_ok (oracle prompt) 3 3 0 (some e2) r h3
  simp [_call_groq]
  rw [show (3 : Nat) = 2 + 1 from rfl] at s1 ⊢
  rw [s1, show (2 : Nat) = 1 + 1 from rfl] at *
  rw [s2, show (1 : Nat) = 0 + 1 from rfl] at *
  rw [s3]

/-- Witness for C5: fail, fail, succeed. -/
theorem groq_third_attempt_success_witness :
    _call_groq true (fun _ k => if k < 3 then .error "x" else .ok " hi ") "p" 3
      = (.ok (pyStrip " hi "), 3) :=
  groq_third_attempt_success (fun _ k => if k < 3 then .error "x" else .ok " hi ")
    "p" "x" "x" " hi " rfl rfl rfl

/-- C6: for a path whose (lowercased `splitext`) extension is neither
`.pdf` nor `.docx`, extraction returns exactly the empty string and
raises nothing, whatever the two document libraries would do. -/
theorem extract_other_extension_empty
    (pdfExtract : String → Except String String)
    (docxParagraphs : String → Except String (List String)) (path : String)
    (h1 : lowerStr (splitextExt path) ≠ ".pdf")
    (h2 : lowerStr (splitextExt path) ≠ ".docx") :
    extract_resume_text pdfExtract docxParagraphs path = .ok "" := by
  simp [extract_resume_text, h1, h2]

/-- Witness for C6 on a `.txt` path with raising library stubs. -/
theorem extract_other_extension_empty_witness :
    extract_resume_text (fun _ => .error "pdf read") (fun _ => .error "docx read")
      "temp/resume.txt" = .ok "" :=
  extract_other_extension_empty _ _ _ (by decide) (by decide)

/-- C7: a `POST /upload` without a `resume` form field returns 400 with
body exactly `error: No file uploaded`, with no save attempted, no
extraction attempted, and zero completion calls. -/
theorem upload_no_file_400 (saveResult : Except String Unit)
    (pdfExtract : String → Except String String)
    (docxParagraphs : String → Except String (List String))
    (filename : String) (configured : Bool)
    (oracle : String → Nat → Except String String) :
    upload_resume false saveResult pdfExtract docxParagraphs filename configured oracle
      = (⟨400, [("error", "No file uploaded")]⟩, ⟨false, false, 0⟩) := rfl

/-- C8: `POST /analyze` returns 400 `No resume text provided` with zero
completion calls when `resume_text` is absent or empty; and when the
text is non-empty and the completion client succeeds with `reply`, it
returns 200 with exactly the two fields `ai_suggestions` (the raw reply)
and `model`. -/
theorem analyze_contract (configured : Bool)
    (oracle : String → Nat → Except String String) (model : String) :
    (analyze_resume none configured oracle model
        = (⟨400, [("error", "No resume text provided")]⟩, 0)
      ∧ analyze_resume (some "") configured oracle model
        = (⟨400, [("error", "No resume text provided")]⟩, 0))
    ∧ ∀ (t reply : String) (n : Nat), t ≠ "" →
        _call_groq configured oracle (analyzePrompt t) 3 = (.ok reply, n) →
        analyze_resume (some t) configured oracle model
          = (⟨200, [("ai_suggestions", reply), ("model", model)]⟩, n) := by
  refine ⟨⟨rfl, rfl⟩, ?_⟩
  intro t reply n ht hc
  simp [analyze_resume, ht, hc]

/-- Witness for C8's success branch. -/
theorem analyze_contract_witness :
    analyze_resume (some "my resume") true (fun _ _ => .ok "advice") "m"
      = (⟨200, [("ai_suggestions", "advice"), ("model", "m")]⟩, 1) :=
  (analyze_contract true (fun _ _ => .ok "advice") "m").2 "my resume" "advice" 1
    (by decide) (by rfl)

/-- C1: whenever the upload pipeline reaches the parser (file present,
save fine, extraction non-empty, completion successful with `reply`) and
at least one of the three regexes fails to match, the response is 500
with body exactly the incomplete-analysis error message plus the raw
reply under `raw_ai_output` — never a partial-success body. -/
theorem upload_incomplete_parse_returns_500
    (pdfExtract : String → Except String String)
    (docxParagraphs : String → Except String (List String))
    (filename : String) (oracle : String → Nat → Except String String)
    (text reply : String) (n : Nat)
    (hex : extract_resume_text pdfExtract docxParagraphs ("temp/" ++ filename) = .ok text)
    (hne : pyStrip text ≠ "")
    (hreply : _call_groq true oracle (uploadPrompt text) 3 = (.ok reply, n))
    (hmiss : ratingSearch reply = none ∨ suggestionsSearch reply = none
              ∨ exampleSearch reply = none) :
    (upload_resume true (.ok ()) pdfExtract docxParagraphs filename true oracle).1
      = ⟨500, [("error", incompleteMsg), ("raw_ai_output", reply)]⟩ := by
  rcases hmiss with h | h | h <;>
    simp [upload_resume, hex, hne, hreply, parseReply, truthy, h]

/-- Witness for C1: a reply with none of the markers. -/
theorem upload_incomplete_parse_returns_500_witness :
    (upload_resume true (.ok ()) (fun _ => .ok "resume body")
        (fun _ => .error "docx read") "cv.pdf" true
        (fun _ _ => .ok "nothing useful")).1
      = ⟨500, [("error", incompleteMsg), ("raw_ai_output", "nothing useful")]⟩ :=
  upload_incomplete_parse_returns_500 _ _ _ _ "resume body" "nothing useful" 1
    (by rfl) (by decide) (by rfl) (Or.inl (by rfl))

/-- C3's refuting reply: the marker is present but no colon follows it. -/
def c3cexReply : String := "Example of rewritten section\nRewritten text"

/-- C3 counterexample: a reply containing the literal example marker in
which no colon follows the marker, yet the example regex does not match
at all — so the colon after the marker is mandatory, not optional. -/
theorem example_requires_colon_cex :
    containsSub exMarker c3cexReply.data = true ∧ exampleSearch c3cexReply = none := by
  decide

/-- C3 amended: the example pattern `Example of rewritten section.*?:\s*(.*)`
requires a colon somewhere after the marker; the example field is the
text after the first such colon (whitespace skipped), and a reply with
no colon at all yields a null example, the marker itself being matched
case-insensitively. -/
theorem example_colon_required :
    (∀ s : String, ':' ∉ s.data → exampleSearch s = none)
    ∧ exampleSearch "Intro Example of rewritten section: text here" = some "text here"
    ∧ exampleSearch "EXAMPLE OF REWRITTEN SECTION:\nUpper case text" = some "Upper case text" := by
  refine ⟨fun s hs => exampleSearch_no_colon s.data hs, by decide, by decide⟩

/-- Witness for C3's amended universal part. -/
theorem example_colon_required_witness :
    exampleSearch c3cexReply = none :=
  example_colon_required.1 c3cexReply (by decide)

/-- C9's refuting reply: it contains `Rating: 99`, but after an earlier
rating marker. -/
def c9cexReply : String :=
  "Rating: 1\nRating: 99\nSuggestions:\n- improve\nExample of rewritten section:\nBetter text"

/-- C9 counterexample: this reply contains the literal `Rating: 99` and
its suggestions and example fields match non-trivially, yet `/upload`
returns 200 with `ai_rating` `"1"` — the leftmost rating match wins, so
the claim's `ai_rating "99"` conclusion fails. -/
theorem rating_first_match_cex :
    containsSub "Rating: 99".data c9cexReply.data = true
    ∧ (upload_resume true (.ok ()) (fun _ => .ok "resume body")
          (fun _ => .error "docx read") "cv.pdf" true
          (fun _ _ => .ok c9cexReply)).1
        = ⟨200, [("ai_rating", "1"), ("ai_suggestions", "- improve"),
                 ("ai_example", "Better text"), ("raw_ai_output", c9cexReply)]⟩ := by
  decide

/-- The two single-marker replies of C9. -/
def c9r99 : String := "Rating: 99\nSuggestions:\n- a\nExample of rewritten section:\nB"

/-- The `Rating: 100` variant of C9. -/
def c9r100 : String := "Rating: 100\nSuggestions:\n- a\nExample of rewritten section:\nB"

/-- C9 amended: the rating is the captured group of the leftmost match
of the rating pattern and is never range-validated — whenever the
pipeline reaches the parser and all three fields parse to non-empty
strings, `/upload` returns 200 echoing the captured rating verbatim,
whatever its value; in particular a reply whose only rating marker is
`Rating: 99` yields `ai_rating "99"`, and `Rating: 100` yields
`ai_rating "10"` (only the first two digits are captured). -/
theorem rating_unvalidated_leftmost :
    (∀ (pdfExtract : String → Except String String)
       (docxParagraphs : String → Except String (List String))
       (filename : String) (oracle : String → Nat → Except String String)
       (text reply r s e : String) (n : Nat),
       extract_resume_text pdfExtract docxParagraphs ("temp/" ++ filename) = .ok text →
       pyStrip text ≠ "" →
       _call_groq true oracle (uploadPrompt text) 3 = (.ok reply, n) →
       ratingSearch reply = some r → r ≠ "" →
       (suggestionsSearch reply).map pyStrip = some s → s ≠ "" →
       (exampleSearch reply).map pyStrip = some e → e ≠ "" →
       (upload_resume true (.ok ()) pdfExtract docxParagraphs filename true oracle).1
         = ⟨200, [("ai_rating", r), ("ai_suggestions", s), ("ai_example", e),
                  ("raw_ai_output", reply)]⟩)
    ∧ (upload_resume true (.ok ()) (fun _ => .ok "resume body")
          (fun _ => .error "docx read") "cv.pdf" true (fun _ _ => .ok c9r99)).1
        = ⟨200, [("ai_rating", "99"), ("ai_suggestions", "- a"), ("ai_example", "B"),
                 ("raw_ai_output", c9r99)]⟩
    ∧ (upload_resume true (.ok ()) (fun _ => .ok "resume body")
          (fun _ => .error "docx read") "cv.pdf" true (fun _ _ => .ok c9r100)).1
        = ⟨200, [("ai_rating", "10"), ("ai_suggestions", "- a"), ("ai_example", "B"),
                 ("raw_ai_output", c9r100)]⟩ := by
  refine ⟨?_, by decide, by decide⟩
  intro pdfE docxP fn oracle text reply r s e n hex hne hreply hr hrne hs hsne hhe hene
  simp [upload_resume, hex, hne, hreply, parseReply, truthy, hr, hrne, hs, hsne, hhe, hene]

/-- Witness for C9's amended universal part. -/
theorem rating_unvalidated_leftmost_witness :
    (upload_resume true (.ok ()) (fun _ => .ok "resume body")
        (fun _ => .error "docx read") "cv.pdf" true (fun _ _ => .ok c9r99)).1
      = ⟨200, [("ai_rating", "99"), ("ai_suggestions", "- a"), ("ai_example", "B"),
               ("raw_ai_output", c9r99)]⟩ :=
  rating_unvalidated_leftmost.1 _ _ _ _ "resume body" c9r99 "99" "- a" "B" 1
    (by rfl) (by decide) (by rfl) (by decide) (by decide) (by decide) (by decide)
    (by decide) (by decide)

/-- The suggestions pattern matched right at its marker, when only
whitespace separates it from the example marker: the capture is empty. -/
theorem matchSuggestions_empty_capture (w b : List Char)
    (hw : ∀ c ∈ w, pyWs c = true) :
    matchSuggestions (sugMarker ++ (w ++ (exMarker ++ b))) = some "" := by
  have h1 : ciConsume sugMarker (sugMarker ++ (w ++ (exMarker ++ b)))
      = some (w ++ (exMarker ++ b)) := ciConsume_append _ _
  have h3 : exMarker ++ b = 'E' :: ("xample of rewritten section".data ++ b) := rfl
  have h4 : dropWs (exMarker ++ b) = 'E' :: ("xample of rewritten section".data ++ b) := by
    rw [h3]
    simp [dropWs, List.dropWhile, pyWs]
  have h6 : sepMunch (w ++ (exMarker ++ b))
      = 'E' :: ("xample of rewritten section".data ++ b) := by
    unfold sepMunch
    rw [dropWs_ws_append w _ hw, h4]
    simp
  have h5 : ciStartsWith exMarker ('E' :: ("xample of rewritten section".data ++ b)) = true := by
    rw [← h3]
    simp [ciStartsWith, ciConsume_append]
  have h7 : captureUntilMarker ('E' :: ("xample of rewritten section".data ++ b)) = [] := by
    rw [captureUntilMarker, if_pos h5]
  unfold matchSuggestions
  rw [h1]
  show some ⟨captureUntilMarker (sepMunch (w ++ (exMarker ++ b)))⟩ = some ""
  rw [h6, h7]

/-- The suggestions search on a reply whose (first) `Suggestions` marker
is separated from the example marker by whitespace only. -/
theorem suggestionsSearch_shape (a w b : List Char)
    (hw : ∀ c ∈ w, pyWs c = true)
    (ha : ∀ k, k < a.length →
        ciStartsWith sugMarker (List.drop k a ++ (sugMarker ++ (w ++ (exMarker ++ b)))) = false) :
    searchFrom matchSuggestions (a ++ (sugMarker ++ (w ++ (exMarker ++ b)))) = some "" := by
  have hnone : ∀ k, k < a.length →
      matchSuggestions (List.drop k a ++ (sugMarker ++ (w ++ (exMarker ++ b)))) = none := by
    intro k hk
    have hsw := ha k hk
    unfold ciStartsWith at hsw
    cases hcc : ciConsume sugMarker (List.drop k a ++ (sugMarker ++ (w ++ (exMarker ++ b)))) with
    | some r => rw [hcc] at hsw; simp at hsw
    | none => simp [matchSuggestions, hcc]
  rw [searchFrom_skip matchSuggestions a _ hnone]
  have hm := matchSuggestions_empty_capture w b hw
  have hx : sugMarker ++ (w ++ (exMarker ++ b))
      = 'S' :: ("uggestions".data ++ (w ++ (exMarker ++ b))) := rfl
  rw [hx] at hm ⊢
  rw [searchFrom, hm]

/-- C10: in a reply of the shape `a ++ "Suggestions" ++ w ++
"Example of rewritten section" ++ b` where `w` is whitespace-only and no
case-insensitive occurrence of `Suggestions` starts inside `a` (so the
shown marker is the reply's Suggestions marker), the suggestions regex
matches with an empty capture, the parsed field is the empty string, and
`/upload` returns the incomplete-analysis 500 with the raw reply — not
a success with an empty suggestions field. -/
theorem empty_suggestions_capture_500
    (pdfExtract : String → Except String String)
    (docxParagraphs : String → Except String (List String))
    (filename : String) (oracle : String → Nat → Except String String)
    (text : String) (a w b : List Char) (n : Nat)
    (hw : ∀ c ∈ w, pyWs c = true)
    (ha : ∀ k, k < a.length →
        ciStartsWith sugMarker (List.drop k a ++ (sugMarker ++ (w ++ (exMarker ++ b)))) = false)
    (hex : extract_resume_text pdfExtract docxParagraphs ("temp/" ++ filename) = .ok text)
    (hne : pyStrip text ≠ "")
    (hreply : _call_groq true oracle (uploadPrompt text) 3
        = (.ok ⟨a ++ (sugMarker ++ (w ++ (exMarker ++ b)))⟩, n)) :
    (parseReply ⟨a ++ (sugMarker ++ (w ++ (exMarker ++ b)))⟩).suggestions = some ""
    ∧ (upload_resume true (.ok ()) pdfExtract docxParagraphs filename true oracle).1
        = ⟨500, [("error", incompleteMsg),
                 ("raw_ai_output", ⟨a ++ (sugMarker ++ (w ++ (exMarker ++ b)))⟩)]⟩ := by
  have hsugg : suggestionsSearch ⟨a ++ (sugMarker ++ (w ++ (exMarker ++ b)))⟩ = some "" :=
    suggestionsSearch_shape a w b hw ha
  have hps : pyStrip "" = "" := rfl
  constructor
  · simp [parseReply, hsugg, hps]
  · simp [upload_resume, hex, hne, hreply, parseReply, truthy, hsugg, hps]

/-- C10's concrete witness reply, as a character list. -/
def c10Reply : List Char :=
  "Rating: 8\n".data ++ (sugMarker ++ ("\n".data ++ (exMarker ++ ":\nGood text".data)))

/-- Witness for C10: `Suggestions` followed by a newline and then
directly the example marker. -/
theorem empty_suggestions_capture_500_witness :
    (parseReply ⟨c10Reply⟩).suggestions = some ""
    ∧ (upload_resume true (.ok ()) (fun _ => .ok "resume body")
          (fun _ => .error "docx read") "cv.pdf" true
          (fun _ _ => .ok ⟨c10Reply⟩)).1
        = ⟨500, [("error", incompleteMsg), ("raw_ai_output", ⟨c10Reply⟩)]⟩ :=
  empty_suggestions_capture_500 _ _ _ _ "resume body"
    "Rating: 8\n".data "\n".data ":\nGood text".data 1
    (by decide) (by decide) (by rfl) (by decide) (by rfl)

end ResumeApp
